import Mathlib

/-!
Verification of the infrastructure-assembly and lifecycle-teardown logic of
the iAgent DevOps repository.

The development shallowly embeds:
* the `CostOptimizedInfrastructureStack` constructor
  (`apps/infrastructure/src/lib/cost-optimized-infrastructure-stack.ts`),
* the `IAgentInfrastructureStack` constructor
  (`apps/infrastructure/src/lib/iagent-infrastructure-stack.ts`),
* the CDK entry point `apps/infrastructure/src/main.ts`,
* the teardown scripts (`teardown-infrastructure.sh` embedded in
  `AWS-SETUP.md`, and `cleanup-aws.sh`),
* the Fargate-profile status-polling loop (`wait-for-fargate` script).

JavaScript `||`-defaulting, `??`-defaulting and `parseInt` are modelled
explicitly, since the constructors rely on their falsy/NaN behaviour.
-/

/-- A JavaScript number as it flows through the sizing configuration:
either an actual integer or `NaN` (the result of `parseInt` on a
non-numeric string).  Fractional values never arise in these code paths. -/
inductive JSNum where
  | nan : JSNum
  | num : Int → JSNum
deriving DecidableEq, Repr

/-- JavaScript truthiness of an optional number: `undefined`, `NaN` and `0`
are falsy, every other number is truthy. -/
def jsTruthyNum : Option JSNum → Bool
  | none => false
  | some JSNum.nan => false
  | some (JSNum.num v) => v != 0

/-- JavaScript `x || d` for an optional numeric property `x` with integer
default `d`: the default replaces `undefined`, `NaN` and `0`. -/
def jsOrNum (x : Option JSNum) (d : Int) : JSNum :=
  match x with
  | none => JSNum.num d
  | some JSNum.nan => JSNum.num d
  | some (JSNum.num v) => if v = 0 then JSNum.num d else JSNum.num v

/-- JavaScript `s || d` for an optional string property: the default
replaces `undefined` and the empty string. -/
def jsOrStr (x : Option String) (d : String) : String :=
  match x with
  | none => d
  | some s => if s = "" then d else s

/-- JavaScript truthiness of an optional string: `undefined` and `""` are
falsy. -/
def jsTruthyStr : Option String → Bool
  | none => false
  | some s => s != ""

/-- JavaScript `x ?? d` for an optional boolean property: only
`undefined` is replaced by the default. -/
def jsCoalesce (x : Option Bool) (d : Bool) : Bool :=
  x.getD d

/-- JavaScript `x !== false` for an optional boolean property, the guard
used by `IAgentInfrastructureStack` (`props.enableMonitoring !== false`). -/
def jsNotFalse : Option Bool → Bool
  | some false => false
  | _ => true

/-- One CDK construct instantiated by a stack constructor, in source
order.  Only the construct kind and its configured name are recorded. -/
inductive Res where
  | vpc : Res
  | repository : String → Res
  | iamRole : String → Res
  | iamPolicy : String → Res
  | serviceAccount : String → Res
  | lambdaLayer : Res
  | cluster : Res
  | nodeGroup : Res
  | helmChart : String → Res
  | snsTopic : String → Res
  | alarm : String → Res
  | logGroup : String → Res
  | dashboard : String → Res
  | hostedZone : Res
  | certificate : Res
  | cfnOutput : String → Res
deriving DecidableEq, Repr

/-- Props of `CostOptimizedInfrastructureStack`
(`CostOptimizedInfrastructureStackProps`); every field is optional, as in
the TypeScript interface. -/
structure CostOptimizedProps where
  domainName : Option String := none
  clusterName : Option String := none
  nodeGroupInstanceType : Option String := none
  nodeGroupMinSize : Option JSNum := none
  nodeGroupMaxSize : Option JSNum := none
  nodeGroupDesiredSize : Option JSNum := none
  enableSpotInstances : Option Bool := none
  enableMonitoring : Option Bool := none
  enableAlarms : Option Bool := none
  maxMonthlyCostUSD : Option JSNum := none
deriving DecidableEq, Repr

/-- The observable result of running the `CostOptimizedInfrastructureStack`
constructor: the ordered list of constructs it instantiates plus the
configuration values it resolves.  The TypeScript class declares
`hostedZone` and `certificate` fields but its constructor never assigns
them, so they are always `none` here. -/
structure CostOptimizedStack where
  order : List Res
  clusterName : String
  instanceType : String
  minSize : JSNum
  maxSize : JSNum
  desiredSize : JSNum
  spot : Bool
  monitoring : Bool
  alarms : Bool
  costCeiling : JSNum
  hostedZone : Option String
  certificate : Option String
deriving DecidableEq, Repr

/-- The `CostOptimizedInfrastructureStack` constructor
(`cost-optimized-infrastructure-stack.ts`, constructor body): resolve the
`||`/`??` defaults, then instantiate, in source order, the VPC, the two ECR
repositories, the EKS service role, the kubectl layer, the cluster, the
node-group role, the node group, the cluster-autoscaler Helm chart; then
`if (enableAlarms) setupCostMonitoring(...)` (SNS topic and two alarms);
then `if (enableMonitoring) setupCostOptimizedMonitoring()` (two log
groups and the dashboard); then the five `CfnOutput`s.  The constructor
contains no validation and no throw statement, so it is a total function. -/
def costOptimizedConstructor (props : CostOptimizedProps) : CostOptimizedStack :=
  let clusterName := jsOrStr props.clusterName "iagent-cluster"
  let instanceType := jsOrStr props.nodeGroupInstanceType "t3.medium"
  let minSize := jsOrNum props.nodeGroupMinSize 0
  let maxSize := jsOrNum props.nodeGroupMaxSize 3
  let desiredSize := jsOrNum props.nodeGroupDesiredSize 1
  let enableSpotInstances := jsCoalesce props.enableSpotInstances true
  let enableMonitoring := jsCoalesce props.enableMonitoring true
  let enableAlarms := jsCoalesce props.enableAlarms true
  let maxMonthlyCostUSD := jsOrNum props.maxMonthlyCostUSD 50
  { order :=
      [Res.vpc,
       Res.repository "iagent-backend",
       Res.repository "iagent-frontend",
       Res.iamRole "EKSServiceRole",
       Res.lambdaLayer,
       Res.cluster,
       Res.iamRole "NodeGroupRole",
       Res.nodeGroup,
       Res.helmChart "cluster-autoscaler"]
      ++ (if enableAlarms then
            [Res.snsTopic "iAgent-cost-alerts",
             Res.alarm "iAgent-estimated-cost-alarm",
             Res.alarm "iAgent-cluster-status"]
          else [])
      ++ (if enableMonitoring then
            [Res.logGroup ("/aws/eks/" ++ clusterName ++ "/cluster"),
             Res.logGroup ("/aws/eks/" ++ clusterName ++ "/application"),
             Res.dashboard "iAgent-cost-optimized-monitoring"]
          else [])
      ++ [Res.cfnOutput "ClusterName",
          Res.cfnOutput "BackendRepositoryUri",
          Res.cfnOutput "FrontendRepositoryUri",
          Res.cfnOutput "VpcId",
          Res.cfnOutput "EstimatedMonthlyCost"],
    clusterName := clusterName,
    instanceType := instanceType,
    minSize := minSize,
    maxSize := maxSize,
    desiredSize := desiredSize,
    spot := enableSpotInstances,
    monitoring := enableMonitoring,
    alarms := enableAlarms,
    costCeiling := maxMonthlyCostUSD,
    hostedZone := none,
    certificate := none }

/-- Does the construct list contain a node group? -/
def hasNodeGroup (l : List Res) : Bool :=
  l.any fun r => match r with | Res.nodeGroup => true | _ => false

/-- Does the construct list contain a CloudWatch dashboard? -/
def hasDashboard (l : List Res) : Bool :=
  l.any fun r => match r with | Res.dashboard _ => true | _ => false

/-- Does the construct list contain an SNS alarm topic? -/
def hasAlarmTopic (l : List Res) : Bool :=
  l.any fun r => match r with | Res.snsTopic _ => true | _ => false

/-- Index of the first construct satisfying `p`. -/
def firstIdx (p : Res → Bool) : List Res → Option Nat
  | [] => none
  | r :: rs => if p r then some 0 else (firstIdx p rs).map (· + 1)

/-- `true` when the list contains both an SNS alarm topic and a dashboard
and the alarm topic is instantiated strictly before the dashboard. -/
def alarmTopicBeforeDashboard (l : List Res) : Bool :=
  match firstIdx (fun r => match r with | Res.snsTopic _ => true | _ => false) l,
        firstIdx (fun r => match r with | Res.dashboard _ => true | _ => false) l with
  | some i, some j => i < j
  | _, _ => false

/-- The chart names of the Helm charts in a construct list, in order. -/
def helmCharts (l : List Res) : List String :=
  l.filterMap fun r => match r with | Res.helmChart c => some c | _ => none

example :
    (costOptimizedConstructor {}).minSize = JSNum.num 0 ∧
    (costOptimizedConstructor {}).desiredSize = JSNum.num 1 ∧
    hasDashboard (costOptimizedConstructor {}).order = true ∧
    hasAlarmTopic (costOptimizedConstructor {}).order = true := by decide

/-- Props of `IAgentInfrastructureStack` (`IAgentInfrastructureStackProps`). -/
structure IAgentProps where
  domainName : Option String := none
  clusterName : Option String := none
  nodeGroupInstanceType : Option String := none
  nodeGroupMinSize : Option JSNum := none
  nodeGroupMaxSize : Option JSNum := none
  nodeGroupDesiredSize : Option JSNum := none
  enableMonitoring : Option Bool := none
  enableAlarms : Option Bool := none
deriving DecidableEq, Repr

/-- The observable result of running the `IAgentInfrastructureStack`
constructor.  `deletionPolicyOverride` records the CloudFormation
`DeletionPolicy` property override applied by `addStackProtection`, and
`stackProtectionCalled` records that the method was invoked. -/
structure IAgentStack where
  order : List Res
  clusterName : String
  minSize : JSNum
  maxSize : JSNum
  desiredSize : JSNum
  hostedZone : Option String
  certificate : Option String
  alarmTopic : Option String
  dashboard : Option String
  stackProtectionCalled : Bool
  deletionPolicyOverride : Option String
deriving DecidableEq, Repr

/-- Constructs instantiated by `setupMonitoring(enableAlarms)` in
`iagent-infrastructure-stack.ts`: the SNS topic, the dashboard, the three
log groups (`createLogGroups`), and — only when `enableAlarms` — the three
alarms of `addAlarms`, followed by the two monitoring `CfnOutput`s. -/
def iagentMonitoringOrder (enableAlarms : Bool) : List Res :=
  [Res.snsTopic "iagent-alarms",
   Res.dashboard "iAgent-Application-Dashboard",
   Res.logGroup "/aws/eks/iagent/application",
   Res.logGroup "/aws/eks/iagent/access",
   Res.logGroup "/aws/eks/iagent/errors"]
  ++ (if enableAlarms then
        [Res.alarm "HighCpuAlarm",
         Res.alarm "HighMemoryAlarm",
         Res.alarm "HighErrorRateAlarm"]
      else [])
  ++ [Res.cfnOutput "DashboardUrl", Res.cfnOutput "AlarmTopicArn"]

/-- The `IAgentInfrastructureStack` constructor
(`iagent-infrastructure-stack.ts`, constructor body): VPC, the two ECR
repositories, the cluster, the node group; then the unconditional add-on
sequence `addClusterAutoscaler()`, `addLoadBalancerController()`,
`addExternalDNS()`, `addMetricsServer()`, `addNginxIngressController()`
(each adding its service account / IAM policies / Helm chart);
then `if (props.domainName)` the hosted zone, certificate and nameserver
output; then `if (props.enableMonitoring !== false)`
`setupMonitoring(props.enableAlarms !== false)`; then the five stack
outputs; finally `addStackProtection()`, which overrides
`DeletionPolicy` to `'Retain'` only when `this.node.defaultChild` is
present (the `if (cfnStack)` guard) — that presence is the
`defaultChildPresent` parameter. -/
def iagentConstructor (props : IAgentProps) (defaultChildPresent : Bool) : IAgentStack :=
  let clusterName := jsOrStr props.clusterName "iagent-cluster"
  let minSize := jsOrNum props.nodeGroupMinSize 1
  let maxSize := jsOrNum props.nodeGroupMaxSize 3
  let desiredSize := jsOrNum props.nodeGroupDesiredSize 2
  let domainSet := jsTruthyStr props.domainName
  let monitoring := jsNotFalse props.enableMonitoring
  let alarms := jsNotFalse props.enableAlarms
  { order :=
      [Res.vpc,
       Res.repository "iagent-backend",
       Res.repository "iagent-frontend",
       Res.cluster,
       Res.nodeGroup,
       Res.serviceAccount "cluster-autoscaler",
       Res.iamPolicy "ClusterAutoscalerPolicy",
       Res.helmChart "cluster-autoscaler",
       Res.serviceAccount "aws-load-balancer-controller",
       Res.iamPolicy "ALBControllerPolicy",
       Res.iamPolicy "ALBControllerAdditionalPolicy",
       Res.helmChart "aws-load-balancer-controller",
       Res.serviceAccount "external-dns",
       Res.iamPolicy "ExternalDNSPolicy",
       Res.helmChart "external-dns",
       Res.helmChart "metrics-server",
       Res.helmChart "ingress-nginx"]
      ++ (if domainSet then
            [Res.hostedZone, Res.certificate, Res.cfnOutput "Nameservers"]
          else [])
      ++ (if monitoring then iagentMonitoringOrder alarms else [])
      ++ [Res.cfnOutput "ClusterName",
          Res.cfnOutput "ClusterEndpoint",
          Res.cfnOutput "BackendRepositoryUri",
          Res.cfnOutput "FrontendRepositoryUri",
          Res.cfnOutput "VpcId"],
    clusterName := clusterName,
    minSize := minSize,
    maxSize := maxSize,
    desiredSize := desiredSize,
    hostedZone := if domainSet then props.domainName else none,
    certificate := if domainSet then props.domainName else none,
    alarmTopic := if monitoring then some "iagent-alarms" else none,
    dashboard := if monitoring then some "iAgent-Application-Dashboard" else none,
    stackProtectionCalled := true,
    deletionPolicyOverride := if defaultChildPresent then some "Retain" else none }

/-- The environment variables read by `main.ts`; `none` models an unset
variable. -/
structure MainEnv where
  ENABLE_MONITORING : Option String := none
  ENABLE_ALARMS : Option String := none
  DOMAIN_NAME : Option String := none
  CLUSTER_NAME : Option String := none
  NODE_GROUP_INSTANCE_TYPE : Option String := none
  NODE_GROUP_MIN_SIZE : Option String := none
  NODE_GROUP_MAX_SIZE : Option String := none
  NODE_GROUP_DESIRED_SIZE : Option String := none
deriving DecidableEq, Repr

/-- Is `c` JavaScript whitespace (the cases relevant to these inputs)? -/
def isWsChar (c : Char) : Bool :=
  c = ' ' || c = '\t' || c = '\n' || c = '\r'

/-- The value of a decimal digit string read left to right. -/
def digitsToNat (cs : List Char) : Nat :=
  cs.foldl (fun a c => a * 10 + (c.toNat - 48)) 0

/-- JavaScript `parseInt(s)` (radix 10): skip leading whitespace, accept
an optional sign, then read the longest digit prefix; `NaN` when no digit
follows. -/
def jsParseInt (s : String) : JSNum :=
  let cs := s.data.dropWhile isWsChar
  match cs with
  | '-' :: rest =>
      let ds := rest.takeWhile Char.isDigit
      if ds.isEmpty then JSNum.nan else JSNum.num (-(digitsToNat ds : Int))
  | '+' :: rest =>
      let ds := rest.takeWhile Char.isDigit
      if ds.isEmpty then JSNum.nan else JSNum.num (digitsToNat ds : Int)
  | _ =>
      let ds := cs.takeWhile Char.isDigit
      if ds.isEmpty then JSNum.nan else JSNum.num (digitsToNat ds : Int)

/-- The props computed by `main.ts` from the process environment and passed
to `new CostOptimizedInfrastructureStack(...)`: every sizing variable is
fed through `parseInt(process.env.X || default)` and handed over verbatim —
`main.ts` contains no NaN check and no rejection path. -/
def mainProps (env : MainEnv) : CostOptimizedProps :=
  { domainName := env.DOMAIN_NAME,
    clusterName := some (jsOrStr env.CLUSTER_NAME "iagent-cluster"),
    nodeGroupInstanceType := some (jsOrStr env.NODE_GROUP_INSTANCE_TYPE "t3.medium"),
    nodeGroupMinSize := some (jsParseInt (jsOrStr env.NODE_GROUP_MIN_SIZE "1")),
    nodeGroupMaxSize := some (jsParseInt (jsOrStr env.NODE_GROUP_MAX_SIZE "3")),
    nodeGroupDesiredSize := some (jsParseInt (jsOrStr env.NODE_GROUP_DESIRED_SIZE "2")),
    enableSpotInstances := none,
    enableMonitoring := some (env.ENABLE_MONITORING != some "false"),
    enableAlarms := some (env.ENABLE_ALARMS != some "false"),
    maxMonthlyCostUSD := none }

example : jsParseInt "abc" = JSNum.nan := by decide
example : jsParseInt " 42xy" = JSNum.num 42 := by decide
example : jsParseInt "-7" = JSNum.num (-7) := by decide

/-- The spec's validation-error taxonomy (§7). -/
inductive ValidationError where
  | invalidSizing : ValidationError
  | invalidRegion : ValidationError
  | missingRequiredField : ValidationError
deriving DecidableEq, Repr

/-- Modelled from the spec's words (P3): the sizing invariant
`nodeMinSize ≤ nodeDesiredSize ≤ nodeMaxSize` that `buildPlan` is claimed
to enforce.  This is the spec side of the comparison; the source
constructor is `costOptimizedConstructor`. -/
def specSizingOk (minSize desiredSize maxSize : Int) : Bool :=
  decide (minSize ≤ desiredSize) && decide (desiredSize ≤ maxSize)

/-- Modelled from the spec's words (P3, §4.1): the sizing gate of
`buildPlan`, rejecting with `InvalidSizing` exactly when the invariant
fails. -/
def buildPlanSizingGate (minSize desiredSize maxSize : Int) :
    Except ValidationError Unit :=
  if specSizingOk minSize desiredSize maxSize then Except.ok ()
  else Except.error ValidationError.invalidSizing

/-- Is a resolved size exactly zero? -/
def isZeroSize : JSNum → Bool
  | JSNum.nan => false
  | JSNum.num v => decide (v = 0)

/-- One deletion request issued to the cloud collaborator by a teardown
script. -/
inductive DeleteCall where
  | k8sNamespace : DeleteCall
  | k8sNamespaceForce : DeleteCall
  | k8sClusterRoleBinding : DeleteCall
  | k8sClusterRole : DeleteCall
  | ecrImageBatch : String → DeleteCall
  | ecrRepository : String → DeleteCall
  | cwLogGroup : String → DeleteCall
  | cwAlarms : DeleteCall
  | cdkDestroy : DeleteCall
  | cfnDeleteStack : DeleteCall
  | cdkDestroyAll : DeleteCall
  | eksDeleteCluster : String → DeleteCall
deriving DecidableEq, Repr

/-- The runtime conditions probed by `teardown-infrastructure.sh`
(embedded in `AWS-SETUP.md`): each field answers one of the script's
existence checks. -/
structure TeardownWorld where
  clusterAccessible : Bool
  namespaceDeleteTimedOut : Bool
  backendRepoExists : Bool
  frontendRepoExists : Bool
  logGroups : List String
  alarmsFound : Bool
  stackListed : Bool
  cdkDestroySucceeds : Bool
deriving DecidableEq, Repr

/-- The delete calls issued by `teardown-infrastructure.sh` once past the
confirmation gate, in script order: `cleanup_kubernetes` (namespace
delete, forced retry on timeout, cluster role binding, cluster role; all
only when the cluster is accessible), `cleanup_ecr` (per existing
repository: batch image delete then repository delete), `cleanup_cloudwatch`
(each discovered log group, then the alarms), `destroy_cdk_stack`
(`cdk destroy`, with a CloudFormation `delete-stack` fallback when it
fails).  `cleanup_local_files` and `verify_cleanup` issue no cloud
deletions. -/
def teardownInfraTrace (w : TeardownWorld) : List DeleteCall :=
  (if w.clusterAccessible then
     [DeleteCall.k8sNamespace]
     ++ (if w.namespaceDeleteTimedOut then [DeleteCall.k8sNamespaceForce] else [])
     ++ [DeleteCall.k8sClusterRoleBinding, DeleteCall.k8sClusterRole]
   else [])
  ++ (if w.backendRepoExists then
        [DeleteCall.ecrImageBatch "iagent-backend",
         DeleteCall.ecrRepository "iagent-backend"]
      else [])
  ++ (if w.frontendRepoExists then
        [DeleteCall.ecrImageBatch "iagent-frontend",
         DeleteCall.ecrRepository "iagent-frontend"]
      else [])
  ++ w.logGroups.map DeleteCall.cwLogGroup
  ++ (if w.alarmsFound then [DeleteCall.cwAlarms] else [])
  ++ (if w.stackListed then
        DeleteCall.cdkDestroy ::
          (if w.cdkDestroySucceeds then [] else [DeleteCall.cfnDeleteStack])
      else [])

/-- A run of `teardown-infrastructure.sh`: `confirm_teardown` reads one
reply; anything other than the literal `DELETE` prints "Teardown
cancelled" and exits 0 before any delete call; the exact token runs the
cleanup sequence. Result: (exit code, delete calls issued). -/
def teardownInfraRun (reply : String) (w : TeardownWorld) : Nat × List DeleteCall :=
  if reply = "DELETE" then (0, teardownInfraTrace w) else (0, [])

/-- The runtime conditions probed by `cleanup-aws.sh`. -/
structure CleanupWorld where
  cdkJsonPresent : Bool
  secretsPresent : Bool
  cdkListWorks : Bool
  backendRepoExists : Bool
  frontendRepoExists : Bool
  iagentClusters : List String
deriving DecidableEq, Repr

/-- The delete calls issued by `cleanup-aws.sh` once past its gates, in
script order: `cdk destroy --all --force` first (when `cdk list`
succeeds), then the fallback ECR repository deletions for repositories
that still exist, then `aws eks delete-cluster` for each remaining
iagent cluster. -/
def cleanupAwsTrace (w : CleanupWorld) : List DeleteCall :=
  (if w.cdkListWorks then [DeleteCall.cdkDestroyAll] else [])
  ++ (if w.backendRepoExists then [DeleteCall.ecrRepository "iagent-backend"] else [])
  ++ (if w.frontendRepoExists then [DeleteCall.ecrRepository "iagent-frontend"] else [])
  ++ w.iagentClusters.map DeleteCall.eksDeleteCluster

/-- A run of `cleanup-aws.sh`: the confirmation prompt accepts only the
literal `YES` and exits 1 otherwise ("Cleanup cancelled by user"); the
project-directory check and the `.secrets` check also exit 1 before any
delete call.  Result: (exit code, delete calls issued). -/
def cleanupAwsRun (reply : String) (w : CleanupWorld) : Nat × List DeleteCall :=
  if reply = "YES" then
    if w.cdkJsonPresent then
      if w.secretsPresent then (0, cleanupAwsTrace w) else (1, [])
    else (1, [])
  else (1, [])

/-- Teardown phase of a delete call, following the spec's ordering chain:
`0` = Kubernetes workloads, `1` = registry (ECR), `2` = cluster and
network (the CDK/CloudFormation stack destruction removes both the EKS
cluster and the VPC, and a standalone EKS cluster deletion is also the
cluster); CloudWatch log/alarm deletions are outside the chain (`none`). -/
def callGroup : DeleteCall → Option Nat
  | DeleteCall.k8sNamespace => some 0
  | DeleteCall.k8sNamespaceForce => some 0
  | DeleteCall.k8sClusterRoleBinding => some 0
  | DeleteCall.k8sClusterRole => some 0
  | DeleteCall.ecrImageBatch _ => some 1
  | DeleteCall.ecrRepository _ => some 1
  | DeleteCall.cwLogGroup _ => none
  | DeleteCall.cwAlarms => none
  | DeleteCall.cdkDestroy => some 2
  | DeleteCall.cfnDeleteStack => some 2
  | DeleteCall.cdkDestroyAll => some 2
  | DeleteCall.eksDeleteCluster _ => some 2

/-- The teardown phases of a call sequence, in order. -/
def callGroups (l : List DeleteCall) : List Nat :=
  l.filterMap callGroup

/-- Is a list of phase numbers nondecreasing?  A `false` means some
later-phase deletion was issued before an earlier-phase one. -/
def sortedLE : List Nat → Bool
  | [] => true
  | [_] => true
  | a :: b :: t => decide (a ≤ b) && sortedLE (b :: t)

/-- Status of a Fargate profile as reported by
`aws eks describe-fargate-profile` and matched by the `case` statement of
the wait-for-fargate script. -/
inductive FargateStatus where
  | ACTIVE : FargateStatus
  | CREATE_FAILED : FargateStatus
  | DELETE_FAILED : FargateStatus
  | CREATING : FargateStatus
  | other : String → FargateStatus
deriving DecidableEq, Repr

/-- Outcome of one iteration of the polling loop's `case` statement:
`ACTIVE` breaks out successfully, the two failure statuses exit 1, and
`CREATING` or any unknown status sleeps 30s and polls again (`none`). -/
def pollStep : FargateStatus → Option Bool
  | FargateStatus.ACTIVE => some true
  | FargateStatus.CREATE_FAILED => some false
  | FargateStatus.DELETE_FAILED => some false
  | FargateStatus.CREATING => none
  | FargateStatus.other _ => none

/-- The `while true` polling loop of the wait-for-fargate script, observed
for `n` iterations against the status stream `stream`: the result of the
first decisive poll among the first `n`, or `none` when the loop is still
running after `n` polls.  The script itself has no iteration bound — `n`
is only the observation window. -/
def pollFor (stream : Nat → FargateStatus) : Nat → Option Bool
  | 0 => none
  | n + 1 =>
    match pollStep (stream 0) with
    | some r => some r
    | none => pollFor (fun i => stream (i + 1)) n

example : pollFor (fun _ => FargateStatus.CREATING) 5 = none := by decide
example :
    pollFor (fun i => if i < 2 then FargateStatus.CREATING else FargateStatus.ACTIVE) 5
      = some true := by decide

/-- A `||`-defaulted size with a nonzero default is never zero. -/
lemma isZeroSize_jsOrNum (x : Option JSNum) (d : Int) (hd : d ≠ 0) :
    isZeroSize (jsOrNum x d) = false := by
  rcases x with _ | x
  · simp [jsOrNum, isZeroSize, hd]
  · rcases x with _ | v
    · simp [jsOrNum, isZeroSize, hd]
    · by_cases hv : v = 0 <;> simp [jsOrNum, isZeroSize, hd, hv]

/-- A configuration whose sizing inverts the invariant:
`nodeGroupMinSize = 2 > nodeGroupDesiredSize = 1`, with
`nodeGroupMaxSize = 1` (Scenario B of the spec). -/
def invertedSizingProps : CostOptimizedProps :=
  { nodeGroupMinSize := some (JSNum.num 2),
    nodeGroupMaxSize := some (JSNum.num 1),
    nodeGroupDesiredSize := some (JSNum.num 1) }

/-- C1 counterexample: the sizing `min 2, desired 1, max 1` violates the
invariant (the spec-side gate rejects it with `InvalidSizing`), yet the
`CostOptimizedInfrastructureStack` constructor — whose body contains no
validation and no throw — still instantiates the node group with exactly
these sizes.  The claimed pre-flight rejection does not exist in the
code. -/
theorem costOptimized_accepts_invalid_sizing :
    buildPlanSizingGate 2 1 1 = Except.error ValidationError.invalidSizing ∧
    hasNodeGroup (costOptimizedConstructor invertedSizingProps).order = true ∧
    (costOptimizedConstructor invertedSizingProps).minSize = JSNum.num 2 ∧
    (costOptimizedConstructor invertedSizingProps).maxSize = JSNum.num 1 ∧
    (costOptimizedConstructor invertedSizingProps).desiredSize = JSNum.num 1 := by
  refine ⟨rfl, ?_, ?_, ?_, ?_⟩ <;> decide

/-- C1 amended: the constructor performs no sizing validation at all.  For
every configuration — valid or invalid — it proceeds to create the node
group with the `||`-defaulted sizes; no sizing error is ever raised (the
constructor is a total function with no error outcome). -/
theorem costOptimized_never_rejects_sizing (props : CostOptimizedProps) :
    hasNodeGroup (costOptimizedConstructor props).order = true ∧
    (costOptimizedConstructor props).minSize = jsOrNum props.nodeGroupMinSize 0 ∧
    (costOptimizedConstructor props).maxSize = jsOrNum props.nodeGroupMaxSize 3 ∧
    (costOptimizedConstructor props).desiredSize = jsOrNum props.nodeGroupDesiredSize 1 := by
  obtain ⟨dom, cn, it, mn, mx, ds, sp, mon, al, cost⟩ := props
  exact ⟨rfl, rfl, rfl, rfl⟩

/-- A configuration with monitoring disabled but alarms enabled. -/
def alarmsOnlyProps : CostOptimizedProps :=
  { enableMonitoring := some false, enableAlarms := some true }

/-- C3 counterexample: with `enableMonitoring = false` and
`enableAlarms = true`, the constructor still creates the SNS alarm topic
(`setupCostMonitoring` is gated on `enableAlarms` alone), so the alarm
topic is not created "exactly when enableMonitoring and enableAlarms are
both true"; and even with both flags on, the alarm topic is instantiated
before the dashboard, not depending on it. -/
theorem costOptimized_alarmTopic_without_monitoring :
    hasAlarmTopic (costOptimizedConstructor alarmsOnlyProps).order = true ∧
    hasDashboard (costOptimizedConstructor alarmsOnlyProps).order = false ∧
    (jsCoalesce alarmsOnlyProps.enableMonitoring true &&
       jsCoalesce alarmsOnlyProps.enableAlarms true) = false := by
  decide

/-- C3 amended: the dashboard exists exactly when `enableMonitoring`
(default true), the alarm topic exists exactly when `enableAlarms`
(default true) — independently of `enableMonitoring` — and whenever both
are enabled (in particular for Scenario A's config) the alarm topic is
instantiated strictly before the dashboard, so the alarm topic cannot
depend on the dashboard. -/
theorem costOptimized_monitoring_flags (props : CostOptimizedProps) :
    hasDashboard (costOptimizedConstructor props).order
        = jsCoalesce props.enableMonitoring true ∧
    hasAlarmTopic (costOptimizedConstructor props).order
        = jsCoalesce props.enableAlarms true ∧
    alarmTopicBeforeDashboard (costOptimizedConstructor props).order
        = (jsCoalesce props.enableAlarms true &&
             jsCoalesce props.enableMonitoring true) := by
  obtain ⟨dom, cn, it, mn, mx, ds, sp, mon, al, cost⟩ := props
  rcases mon with _ | mb <;> rcases al with _ | ab <;>
    first
      | exact ⟨rfl, rfl, rfl⟩
      | (cases mb <;> first | exact ⟨rfl, rfl, rfl⟩ | (cases ab <;> exact ⟨rfl, rfl, rfl⟩))
      | (cases ab <;> exact ⟨rfl, rfl, rfl⟩)

/-- The Scenario A configuration of the spec:
`{minSize 0, maxSize 3, desiredSize 1, monitoring true, alarms true}`. -/
def scenarioAProps : CostOptimizedProps :=
  { nodeGroupMinSize := some (JSNum.num 0),
    nodeGroupMaxSize := some (JSNum.num 3),
    nodeGroupDesiredSize := some (JSNum.num 1),
    enableMonitoring := some true,
    enableAlarms := some true }

example :
    hasDashboard (costOptimizedConstructor scenarioAProps).order = true ∧
    hasAlarmTopic (costOptimizedConstructor scenarioAProps).order = true ∧
    alarmTopicBeforeDashboard (costOptimizedConstructor scenarioAProps).order = true := by
  decide

/-- A cost-optimized configuration with a domain name set. -/
def domainProps : CostOptimizedProps :=
  { domainName := some "example.com" }

/-- C5 counterexample: the `CostOptimizedInfrastructureStack` constructor
accepts `domainName` in its props but never reads it — with
`domainName = "example.com"` present (truthy), neither a hosted zone nor
a certificate is created. -/
theorem costOptimized_ignores_domainName :
    jsTruthyStr domainProps.domainName = true ∧
    (costOptimizedConstructor domainProps).hostedZone = none ∧
    (costOptimizedConstructor domainProps).certificate = none ∧
    (costOptimizedConstructor domainProps).order.contains Res.hostedZone = false ∧
    (costOptimizedConstructor domainProps).order.contains Res.certificate = false := by
  decide

/-- C5 amended: only `IAgentInfrastructureStack` derives the hosted zone
and certificate, and it does so exactly when `domainName` is present (and
truthy); `CostOptimizedInfrastructureStack` — the stack variant `main.ts`
instantiates — creates neither resource for any configuration. -/
theorem hosted_zone_certificate_by_stack
    (p : IAgentProps) (dc : Bool) (q : CostOptimizedProps) :
    (iagentConstructor p dc).hostedZone.isSome = jsTruthyStr p.domainName ∧
    (iagentConstructor p dc).certificate.isSome = jsTruthyStr p.domainName ∧
    (costOptimizedConstructor q).hostedZone = none ∧
    (costOptimizedConstructor q).certificate = none := by
  obtain ⟨dom, cn, it, mn, mx, ds, mon, al⟩ := p
  refine ⟨?_, ?_, rfl, rfl⟩ <;>
    · rcases dom with _ | s
      · rfl
      · by_cases hs : s = "" <;>
          simp [iagentConstructor, jsTruthyStr, hs]

/-- C7 confirmed: for every configuration (and regardless of the
`defaultChild` state), the `IAgentInfrastructureStack` constructor
installs its Helm-chart add-ons in the fixed sequence cluster-autoscaler,
AWS load-balancer controller, external-dns, metrics-server, NGINX ingress
controller. -/
theorem iagent_addon_sequence_fixed (p : IAgentProps) (dc : Bool) :
    helmCharts (iagentConstructor p dc).order =
      ["cluster-autoscaler", "aws-load-balancer-controller", "external-dns",
       "metrics-server", "ingress-nginx"] := by
  obtain ⟨dom, cn, it, mn, mx, ds, mon, al⟩ := p
  cases hd : jsTruthyStr dom <;> cases hm : jsNotFalse mon <;> cases ha : jsNotFalse al <;>
    simp [iagentConstructor, iagentMonitoringOrder, helmCharts, hd, hm, ha]

/-- C8 counterexample: when the stack node has no default `CfnStack`
child, the `if (cfnStack)` guard inside `addStackProtection` skips the
override — the construction applies no `DeletionPolicy: Retain`, even
though `addStackProtection` itself was called.  The override is therefore
conditional, not unconditional. -/
theorem iagent_no_retain_without_defaultChild :
    (iagentConstructor {} false).stackProtectionCalled = true ∧
    (iagentConstructor {} false).deletionPolicyOverride = none := by
  exact ⟨rfl, rfl⟩

/-- C8 amended: every construction of `IAgentInfrastructureStack` calls
`addStackProtection` at the end of the constructor, and the method
overrides the CloudFormation `DeletionPolicy` to `'Retain'` exactly when
the stack node's default `CfnStack` child is present (the `if (cfnStack)`
guard); when it is absent, no override is applied. -/
theorem iagent_stack_protection_guarded (p : IAgentProps) (dc : Bool) :
    (iagentConstructor p dc).stackProtectionCalled = true ∧
    (iagentConstructor p dc).deletionPolicyOverride
      = (if dc then some "Retain" else none) := by
  exact ⟨rfl, rfl⟩

/-- C9 confirmed: because the constructor defaults with `||`, a property
value of `0` is indistinguishable from omitting the property for
`nodeGroupDesiredSize` (default 1), `nodeGroupMaxSize` (default 3) and
`maxMonthlyCostUSD` (default 50) — the whole constructed stack is
identical; consequently a desired or maximum node count of zero can never
be configured.  `nodeGroupMinSize = 0` survives only because its default
is also 0. -/
theorem costOptimized_zero_props_indistinguishable (props : CostOptimizedProps) :
    costOptimizedConstructor { props with nodeGroupDesiredSize := some (JSNum.num 0) }
        = costOptimizedConstructor { props with nodeGroupDesiredSize := none } ∧
    costOptimizedConstructor { props with nodeGroupMaxSize := some (JSNum.num 0) }
        = costOptimizedConstructor { props with nodeGroupMaxSize := none } ∧
    costOptimizedConstructor { props with maxMonthlyCostUSD := some (JSNum.num 0) }
        = costOptimizedConstructor { props with maxMonthlyCostUSD := none } ∧
    costOptimizedConstructor { props with nodeGroupMinSize := some (JSNum.num 0) }
        = costOptimizedConstructor { props with nodeGroupMinSize := none } ∧
    (costOptimizedConstructor
        { props with nodeGroupMinSize := some (JSNum.num 0) }).minSize = JSNum.num 0 ∧
    isZeroSize (costOptimizedConstructor props).desiredSize = false ∧
    isZeroSize (costOptimizedConstructor props).maxSize = false := by
  refine ⟨rfl, rfl, rfl, rfl, rfl, ?_, ?_⟩
  · exact isZeroSize_jsOrNum props.nodeGroupDesiredSize 1 (by decide)
  · exact isZeroSize_jsOrNum props.nodeGroupMaxSize 3 (by decide)

/-- The entry-point environment with a non-numeric node-group size. -/
def nonNumericEnv : MainEnv :=
  { NODE_GROUP_MIN_SIZE := some "abc",
    NODE_GROUP_MAX_SIZE := some "abc",
    NODE_GROUP_DESIRED_SIZE := some "abc" }

/-- C10 confirmed: `main.ts` passes each `parseInt` result into the stack
props verbatim — there is no NaN guard and no rejection path (`mainProps`
is total); a non-numeric environment value (e.g. `"abc"`) therefore flows
into the props as `NaN`. -/
theorem main_passes_parse_results_unguarded (env : MainEnv) :
    (mainProps env).nodeGroupMinSize
        = some (jsParseInt (jsOrStr env.NODE_GROUP_MIN_SIZE "1")) ∧
    (mainProps env).nodeGroupMaxSize
        = some (jsParseInt (jsOrStr env.NODE_GROUP_MAX_SIZE "3")) ∧
    (mainProps env).nodeGroupDesiredSize
        = some (jsParseInt (jsOrStr env.NODE_GROUP_DESIRED_SIZE "2")) ∧
    (mainProps nonNumericEnv).nodeGroupMinSize = some JSNum.nan ∧
    (mainProps nonNumericEnv).nodeGroupMaxSize = some JSNum.nan ∧
    (mainProps nonNumericEnv).nodeGroupDesiredSize = some JSNum.nan := by
  refine ⟨rfl, rfl, rfl, ?_, ?_, ?_⟩ <;> decide

/-- A teardown world in which every probed resource exists. -/
def fullTeardownWorld : TeardownWorld :=
  { clusterAccessible := true,
    namespaceDeleteTimedOut := false,
    backendRepoExists := true,
    frontendRepoExists := true,
    logGroups := ["/aws/eks/iagent-cluster/cluster"],
    alarmsFound := true,
    stackListed := true,
    cdkDestroySucceeds := true }

/-- A cleanup-aws world in which every probed resource exists. -/
def fullCleanupWorld : CleanupWorld :=
  { cdkJsonPresent := true,
    secretsPresent := true,
    cdkListWorks := true,
    backendRepoExists := true,
    frontendRepoExists := true,
    iagentClusters := ["iagent-cluster"] }

/-- C2 counterexample: the teardown entry point `cleanup-aws.sh` does not
use the `DELETE` token at all — typing `DELETE` at its prompt aborts
(its required token is `YES`), and the abort exits with code 1, not 0.
The reply `no` likewise exits 1.  Zero delete calls are issued in both
runs. -/
theorem cleanupAws_gate_contradicts_DELETE_token :
    cleanupAwsRun "DELETE" fullCleanupWorld = (1, []) ∧
    cleanupAwsRun "no" fullCleanupWorld = (1, []) ∧
    teardownInfraRun "no" fullTeardownWorld = (0, []) := by
  refine ⟨?_, ?_, ?_⟩ <;> decide

/-- C2 amended: each teardown script guards every delete call behind its
own confirmation gate.  `teardown-infrastructure.sh` requires the literal
`DELETE`: any other reply aborts with exit code 0 and zero delete calls.
`cleanup-aws.sh` instead requires the literal `YES`: any other reply
(including `DELETE`) aborts with exit code 1 and zero delete calls. -/
theorem teardown_confirmation_gates (reply : String)
    (w : TeardownWorld) (w2 : CleanupWorld) :
    (reply ≠ "DELETE" → teardownInfraRun reply w = (0, [])) ∧
    (reply ≠ "YES" → cleanupAwsRun reply w2 = (1, [])) := by
  constructor
  · intro h
    simp [teardownInfraRun, h]
  · intro h
    simp [cleanupAwsRun, h]

/-- Witness for the confirmation-gate theorem at the concrete reply
`"n"`. -/
theorem teardown_confirmation_gates_witness :
    teardownInfraRun "n" fullTeardownWorld = (0, []) ∧
    cleanupAwsRun "n" fullCleanupWorld = (1, []) := by
  have h := teardown_confirmation_gates "n" fullTeardownWorld fullCleanupWorld
  exact ⟨h.1 (by decide), h.2 (by decide)⟩

/-- Log-group deletions are outside the spec's ordering chain. -/
lemma filterMap_callGroup_cwLogGroup (names : List String) :
    List.filterMap (callGroup ∘ DeleteCall.cwLogGroup) names = [] := by
  induction names with
  | nil => rfl
  | cons n rest ih => simp [callGroup, ih]

/-- C4 counterexample: in a world where the stack, both repositories and
the cluster all exist, `cleanup-aws.sh` (past its `YES` gate) first runs
`cdk destroy --all` — which deletes the cluster and the network — and only
afterwards issues the ECR repository deletions and the EKS cluster
deletion, so the claimed order (registry before cluster, cluster before
network) is violated. -/
theorem cleanupAws_deletes_stack_before_registry :
    (cleanupAwsRun "YES" fullCleanupWorld).2
        = [DeleteCall.cdkDestroyAll,
           DeleteCall.ecrRepository "iagent-backend",
           DeleteCall.ecrRepository "iagent-frontend",
           DeleteCall.eksDeleteCluster "iagent-cluster"] ∧
    sortedLE (callGroups (cleanupAwsRun "YES" fullCleanupWorld).2) = false := by
  refine ⟨?_, ?_⟩ <;> decide

/-- C4 amended: `teardown-infrastructure.sh` honours the ordering — in
every run past its gate, all Kubernetes-workload deletions precede all
registry deletions, which precede the stack destruction that removes the
cluster and the network (the phase sequence is nondecreasing);
`cleanup-aws.sh` does not (see the counterexample). -/
theorem teardownInfra_delete_order (w : TeardownWorld) :
    sortedLE (callGroups (teardownInfraRun "DELETE" w).2) = true := by
  obtain ⟨ca, nt, br, fr, lgs, af, sl, cds⟩ := w
  cases ca <;> cases nt <;> cases br <;> cases fr <;> cases af <;> cases sl <;> cases cds <;>
    simp [teardownInfraRun, teardownInfraTrace, callGroups, callGroup, sortedLE,
      filterMap_callGroup_cwLogGroup]

/-- C6 counterexample: the wait-for-fargate polling loop does not
terminate for every status sequence — against a collaborator that keeps
reporting `CREATING`, no number of iterations ever produces a result (the
`while true` loop has no retry bound). -/
theorem fargate_poll_not_always_terminating :
    ¬ ∀ stream : Nat → FargateStatus, ∃ n, (pollFor stream n).isSome = true := by
  intro h
  obtain ⟨n, hn⟩ := h fun _ => FargateStatus.CREATING
  have hnone : ∀ m, pollFor (fun _ => FargateStatus.CREATING) m = none := by
    intro m
    induction m with
    | zero => rfl
    | succ k ih => simpa [pollFor, pollStep] using ih
  rw [hnone n] at hn
  simp at hn

/-- C6 amended: the polling loop is unbounded — it produces a result
within `n` iterations exactly when one of the first `n` collaborator
statuses is terminal (`ACTIVE`, `CREATE_FAILED` or `DELETE_FAILED`); a
stream that never reaches a terminal status is polled forever rather
than being treated as failed. -/
theorem fargate_poll_terminates_iff_terminal (stream : Nat → FargateStatus) (n : Nat) :
    (pollFor stream n).isSome = true ↔ ∃ i, i < n ∧ (pollStep (stream i)).isSome = true := by
  induction n generalizing stream with
  | zero => simp [pollFor]
  | succ k ih =>
    cases hs : pollStep (stream 0) with
    | some r =>
      simp only [pollFor, hs]
      exact ⟨fun _ => ⟨0, Nat.succ_pos k, by simp [hs]⟩, fun _ => rfl⟩
    | none =>
      simp only [pollFor, hs]
      rw [ih]
      constructor
      · rintro ⟨i, hi, hterm⟩
        exact ⟨i + 1, Nat.succ_lt_succ hi, hterm⟩
      · rintro ⟨i, hi, hterm⟩
        cases i with
        | zero => simp [hs] at hterm
        | succ j => exact ⟨j, Nat.lt_of_succ_lt_succ hi, hterm⟩
